import Mathlib

/-!
Shallow embedding of the request-dispatch core of the lolzteam API client:
the `Route` value object, `BaseClient._build_request`, the header
computations (`user_agent`, `auth_headers`, `default_headers`),
`BaseClient._check_response` together with the exception classes of
`_exceptions.py`, the rate limiter (`_get_sleep_duration`,
`_update_last_request_time`), `SyncAPIClient.request`, and the
`Lolzteam.__init__` constructor. Clock readings (`time.time()`) are passed
explicitly as rational numbers; the network send is an oracle whose completed
response is a parameter.
-/

/-- JSON values as decoded by `Response.json()`. Only the shapes the dispatch
core inspects are needed: objects (for the `errors` field lookup), arrays and
strings (for the error list), and numbers for sample bodies. -/
inductive Json where
  | null : Json
  | bool (b : Bool) : Json
  | num (n : Int) : Json
  | str (s : String) : Json
  | arr (elems : List Json) : Json
  | obj (fields : List (String × Json)) : Json

/-- First-match lookup in a JSON object's field list: the embedding of
Python's `dict.get` on a decoded JSON object (keys are unique in practice). -/
def lookupField : List (String × Json) → String → Option Json
  | [], _ => none
  | (k, v) :: rest, key => if k = key then some v else lookupField rest key

/-- Embedding of `response.json().get("errors", [])`: extracts the `errors`
array of strings, defaulting to the empty list when the body is not an
object, has no `errors` field, or the field is not an array (per the inbound
protocol the error list holds human-readable strings). -/
def getErrors (body : Json) : List String :=
  match body with
  | Json.obj fields =>
    match lookupField fields "errors" with
    | some (Json.arr xs) =>
      xs.filterMap (fun j => match j with | Json.str s => some s | _ => none)
    | _ => []
  | _ => []

/-- Prepared request as produced by `BaseClient._build_request`: method,
absolute url, insertion-ordered header mapping, and the route payload passed
through to the transport. -/
structure PreparedRequest where
  method : String
  url : String
  headers : List (String × String)
  files : List (String × String)
  data : List (String × String)
  params : List (String × Option String)

/-- Embedding of `Route` (`_base_client.py`): a declarative description of one
HTTP call. Python's falsy `None` and empty mappings are both modelled by the
empty list. -/
structure Route where
  method : String
  url : String
  files : List (String × String)
  data : List (String × String)
  params : List (String × Option String)

/-- Builder-relevant client configuration: the class name and version feeding
`user_agent`, the base url, and the auth token. `none` models `BaseClient`,
whose `auth_headers` is the empty mapping; `some tok` models `Lolzteam`, which
overrides `auth_headers` with a Bearer token. -/
structure ClientConfig where
  className : String
  version : String
  baseUrl : String
  authToken : Option String

/-- Embedding of `BaseClient.user_agent`: the f-string
`"{class name}/Python {version}"`. -/
def userAgent (cfg : ClientConfig) : String :=
  cfg.className ++ "/Python " ++ cfg.version

/-- Embedding of `auth_headers`: empty for `BaseClient`, a Bearer token
mapping for the `Lolzteam` override. -/
def authHeaders (cfg : ClientConfig) : List (String × String) :=
  match cfg.authToken with
  | some tok => [("Authorization", "Bearer " ++ tok)]
  | none => []

/-- Embedding of `BaseClient.default_headers`: the user-agent entry followed
by the auth headers. -/
def defaultHeaders (cfg : ClientConfig) : List (String × String) :=
  ("User-Agent", userAgent cfg) :: authHeaders cfg

/-- Python dict assignment `headers[key] = value` on an insertion-ordered,
unique-key header mapping: replace the value in place, or append at the end
when the key is absent. -/
def setHeader : List (String × String) → String → String → List (String × String)
  | [], key, value => [(key, value)]
  | (k, v) :: rest, key, value =>
    if k = key then (key, value) :: rest else (k, v) :: setHeader rest key value

/-- Python dict lookup on the header mapping. -/
def getHeader : List (String × String) → String → Option String
  | [], _ => none
  | (k, v) :: rest, key => if k = key then some v else getHeader rest key

/-- Embedding of `BaseClient._build_request`: start from `default_headers`,
set `Content-Type` to multipart when `route.files` is truthy, then set it to
JSON when `route.data` is truthy (so the second write overwrites the first
when both are truthy), and assemble the prepared request by joining the base
url with the route path. -/
def buildRequest (cfg : ClientConfig) (route : Route) : PreparedRequest :=
  let headers0 := defaultHeaders cfg
  let headers1 :=
    if route.files.isEmpty then headers0
    else setHeader headers0 "Content-Type" "multipart/form-data"
  let headers2 :=
    if route.data.isEmpty then headers1
    else setHeader headers1 "Content-Type" "application/json"
  PreparedRequest.mk route.method (cfg.baseUrl ++ route.url) headers2
    route.files route.data route.params

/-- Completed niquests response: status code, decoded JSON body, and the
originating prepared request. -/
structure Response where
  statusCode : Nat
  body : Json
  request : PreparedRequest

/-- Embedding of `Response.ok` in the requests/niquests convention:
`raise_for_status` raises exactly for the 4xx and 5xx status codes, so `ok`
holds outside that range. -/
def Response.ok (r : Response) : Bool :=
  r.statusCode < 400 || 600 ≤ r.statusCode

/-- Field content shared by `APIStatusError` and `RateLimitError`
(`_exceptions.py`): message, originating request, optional attached body (the
extracted error list, when one was passed), and the status code copied from
the response. -/
structure APIStatusErrorData where
  message : String
  request : PreparedRequest
  body : Option (List String)
  statusCode : Nat

/-- Typed errors raised by `BaseClient._check_response`. -/
inductive LolzteamError where
  | rateLimitError (err : APIStatusErrorData) : LolzteamError
  | apiStatusError (err : APIStatusErrorData) : LolzteamError

/-- Embedding of `BaseClient._check_response`: `ok` responses pass through; a
429 raises `RateLimitError` with the literal message `"Too many requests"`
and no attached body; any other non-success status raises `APIStatusError`
whose message joins the body's `errors` list with the separator `"; "` and
whose body is that list. -/
def checkResponse (resp : Response) : Option LolzteamError :=
  if resp.ok then none
  else if resp.statusCode = 429 then
    some (LolzteamError.rateLimitError
      (APIStatusErrorData.mk "Too many requests" resp.request none resp.statusCode))
  else
    some (LolzteamError.apiStatusError
      (APIStatusErrorData.mk (String.intercalate "; " (getErrors resp.body))
        resp.request (some (getErrors resp.body)) resp.statusCode))

/-- Embedding of the `Lolzteam` client state: the constructor-resolved
configuration plus the rate limiter's mutable `_last_request_time`. -/
structure Lolzteam where
  apiKey : String
  version : String
  baseUrl : String
  keepRateLimit : Bool
  requestLimit : Int
  delayBetweenRequests : Int
  lastRequestTime : Rat

/-- Python truthiness of an optional string: `None` and the empty string are
falsy, every other string is truthy. -/
def isTruthyStr : Option String → Bool
  | none => false
  | some s => if s = "" then false else true

/-- Exception kinds the constructor could raise. `typeError` embeds the
builtin `TypeError` the source raises for a missing key; `configurationError`
is modelled from the spec: the spec's error taxonomy names a
`ConfigurationError` kind for a missing credential, which has no counterpart
class in the source. -/
inductive ConstructionError where
  | typeError (message : String) : ConstructionError
  | configurationError (message : String) : ConstructionError

/-- Discriminator for the spec's configuration-error kind. -/
def ConstructionError.isConfigurationError : ConstructionError → Bool
  | ConstructionError.configurationError _ => true
  | ConstructionError.typeError _ => false

/-- Message of the `TypeError` raised by `Lolzteam.__init__`. -/
def apiKeyErrorMessage : String :=
  "The `api_key` client option must be set either by passing `api_key` to the client or by setting the `LOLZTEAM_API_KEY` environment variable"

/-- Default production base url substituted when `base_url` is falsy. -/
def defaultBaseUrl : String := "https://api.zelenka.guru"

/-- Resolution of `base_url` in `Lolzteam.__init__`. -/
def resolveBaseUrl (baseUrl : Option String) : String :=
  if isTruthyStr baseUrl then baseUrl.getD "" else defaultBaseUrl

/-- Embedding of `Lolzteam.__init__`: resolve the api key from the explicit
argument or, when that is falsy, from the `LOLZTEAM_API_KEY` environment
value; raise `TypeError` when neither supplies a truthy key; otherwise build
the client with the resolved base url and a zero `_last_request_time`. No
network activity is involved: the HTTP session is created only after this
resolution succeeds, and creating it opens no connection. -/
def lolzteamInit (version : String) (apiKey envApiKey baseUrl : Option String)
    (keepRateLimit : Bool) (requestLimit delayBetweenRequests : Int) :
    Except ConstructionError Lolzteam :=
  let key := if isTruthyStr apiKey then apiKey else envApiKey
  if isTruthyStr key then
    Except.ok (Lolzteam.mk (key.getD "") version (resolveBaseUrl baseUrl)
      keepRateLimit requestLimit delayBetweenRequests 0)
  else
    Except.error (ConstructionError.typeError apiKeyErrorMessage)

/-- View of the client as builder configuration: the class name is `Lolzteam`
and `auth_headers` carries the Bearer api key. -/
def Lolzteam.config (c : Lolzteam) : ClientConfig :=
  ClientConfig.mk "Lolzteam" c.version c.baseUrl (some c.apiKey)

/-- Embedding of `BaseClient._update_last_request_time`, with the clock
reading passed explicitly. -/
def updateLastRequestTime (c : Lolzteam) (now : Rat) : Lolzteam :=
  Lolzteam.mk c.apiKey c.version c.baseUrl c.keepRateLimit c.requestLimit
    c.delayBetweenRequests now

/-- Embedding of `BaseClient._get_sleep_duration`, with the clock reading
passed explicitly: the remaining fraction of the configured delay, or zero
when the delay has already elapsed. -/
def getSleepDuration (c : Lolzteam) (now : Rat) : Rat :=
  if now - c.lastRequestTime < (c.delayBetweenRequests : Rat) then
    (c.delayBetweenRequests : Rat) - (now - c.lastRequestTime)
  else 0

/-- Observable outcome of one pass through `SyncAPIClient.request`: the sleep
the rate limiter performs, the prepared request, the returned body or raised
error, and the client state after the dispatch. -/
structure DispatchResult where
  sleepTime : Rat
  prepped : PreparedRequest
  result : Except LolzteamError Json
  client : Lolzteam

/-- Embedding of `SyncAPIClient.request`. The network send is an oracle: the
completed response is a parameter. `startTime` is the clock reading at
dispatch start, consulted only by the rate-limit wait; `completionTime` is
the reading taken after the response has been received and classified, which
is the value `_update_last_request_time` stores. A classification failure
raises before the update, leaving the stored timestamp unchanged. -/
def request (c : Lolzteam) (route : Route) (startTime : Rat) (resp : Response)
    (completionTime : Rat) : DispatchResult :=
  let sleepTime := if c.keepRateLimit then getSleepDuration c startTime else 0
  let prepped := buildRequest c.config route
  match checkResponse resp with
  | some e => DispatchResult.mk sleepTime prepped (Except.error e) c
  | none =>
    DispatchResult.mk sleepTime prepped (Except.ok resp.body)
      (updateLastRequestTime c completionTime)

/-- Content-Type header produced by the builder, as a zero- or one-element
header list: the `data` write wins over the `files` write when both are
truthy. -/
def contentTypeHeader (r : Route) : List (String × String) :=
  if r.data.isEmpty then
    if r.files.isEmpty then [] else [("Content-Type", "multipart/form-data")]
  else [("Content-Type", "application/json")]

/-- Sample originating request used in the concrete response values. -/
def sampleRequest : PreparedRequest :=
  PreparedRequest.mk "GET" "https://api.zelenka.guru/users" [] [] [] []

/-- Sample client with the default configuration: `delay_between_requests`
of 3 and a `_last_request_time` of 0. -/
def client3 : Lolzteam :=
  Lolzteam.mk "KEY" "0.1.0" defaultBaseUrl true 20 3 0

/-- Sample builder configuration carrying an auth token. -/
def cfg0 : ClientConfig :=
  ClientConfig.mk "Lolzteam" "0.1.0" defaultBaseUrl (some "TOKEN")

/-- Sample GET route with no payload. -/
def route0 : Route := Route.mk "GET" "/users" [] [] []

/-- Sample route carrying both files and data. -/
def routeBoth : Route :=
  Route.mk "POST" "/posts" [("file", "bytes")] [("k", "v")] []

/-- Sample 429 response whose body carries a non-empty error list. -/
def resp429 : Response :=
  Response.mk 429 (Json.obj [("errors", Json.arr [Json.str "slow down"])]) sampleRequest

/-- Sample 400 response with an empty error list. -/
def resp400empty : Response :=
  Response.mk 400 (Json.obj [("errors", Json.arr [])]) sampleRequest

/-- Sample 400 response with two errors. -/
def resp400pair : Response :=
  Response.mk 400
    (Json.obj [("errors", Json.arr [Json.str "first", Json.str "second"])])
    sampleRequest

/-- Sample successful response. -/
def resp200 : Response :=
  Response.mk 200 (Json.obj [("id", Json.num 1)]) sampleRequest

/-- Looking up a key just written by `setHeader` returns the written value. -/
theorem getHeader_setHeader_same (hs : List (String × String)) (k v : String) :
    getHeader (setHeader hs k v) k = some v := by
  induction hs with
  | nil => simp [setHeader, getHeader]
  | cons p rest ih =>
    obtain ⟨k1, v1⟩ := p
    by_cases h : k1 = k
    · simp [setHeader, getHeader, h]
    · simp [setHeader, getHeader, h, ih]

/-- Writing an absent key appends the entry at the end of the mapping. -/
theorem setHeader_of_absent (hs : List (String × String)) (k v : String)
    (h : getHeader hs k = none) : setHeader hs k v = hs ++ [(k, v)] := by
  induction hs with
  | nil => simp [setHeader]
  | cons p rest ih =>
    obtain ⟨k1, v1⟩ := p
    by_cases hk : k1 = k
    · simp [getHeader, hk] at h
    · simp only [getHeader, hk, if_false, if_neg hk] at h
      simp [setHeader, hk, ih h]

/-- Overwriting a key that sits (uniquely) at the end of the mapping replaces
that last entry. -/
theorem setHeader_replace_last (hs : List (String × String)) (k w v : String)
    (h : getHeader hs k = none) :
    setHeader (hs ++ [(k, w)]) k v = hs ++ [(k, v)] := by
  induction hs with
  | nil => simp [setHeader]
  | cons p rest ih =>
    obtain ⟨k1, v1⟩ := p
    by_cases hk : k1 = k
    · simp [getHeader, hk] at h
    · simp only [getHeader, hk, if_false, if_neg hk] at h
      simp [setHeader, hk, ih h]

/-- `default_headers` never contains a Content-Type entry: it holds only the
user-agent entry and, possibly, the authorization entry. -/
theorem getHeader_defaultHeaders (cfg : ClientConfig) :
    getHeader (defaultHeaders cfg) "Content-Type" = none := by
  cases h : cfg.authToken with
  | none => simp [defaultHeaders, authHeaders, getHeader, h]
  | some t => simp [defaultHeaders, authHeaders, getHeader, h]

/-- C2 (amended): the builder's Content-Type selection is data-first, because
the JSON write overwrites the multipart write: when `route.data` is non-empty
the header is `application/json` regardless of `files`; when `data` is empty
and `files` is non-empty it is `multipart/form-data`; when both are empty no
Content-Type header is set. -/
theorem buildRequest_contentType (cfg : ClientConfig) (r : Route) :
    getHeader (buildRequest cfg r).headers "Content-Type" =
      (if r.data.isEmpty then
        (if r.files.isEmpty then none else some "multipart/form-data")
       else some "application/json") := by
  by_cases hf : r.files.isEmpty <;> by_cases hd : r.data.isEmpty <;>
    simp [buildRequest, hf, hd, getHeader_setHeader_same, getHeader_defaultHeaders]

/-- C2 counterexample: a Route with non-empty `files` and non-empty `data`
yields Content-Type `application/json`, not `multipart/form-data`, refuting
the claim that `files` forces multipart regardless of `data`. -/
theorem buildRequest_contentType_files_and_data :
    getHeader (buildRequest cfg0 routeBoth).headers "Content-Type" =
      some "application/json" ∧
    (some "application/json" : Option String) ≠ some "multipart/form-data" :=
  ⟨rfl, by decide⟩

/-- Built headers are the default headers with the selected Content-Type
entry appended. -/
theorem buildRequest_headers_eq (cfg : ClientConfig) (r : Route) :
    (buildRequest cfg r).headers = defaultHeaders cfg ++ contentTypeHeader r := by
  have habs1 := setHeader_of_absent (defaultHeaders cfg) "Content-Type"
    "application/json" (getHeader_defaultHeaders cfg)
  have habs2 := setHeader_of_absent (defaultHeaders cfg) "Content-Type"
    "multipart/form-data" (getHeader_defaultHeaders cfg)
  have hrepl := setHeader_replace_last (defaultHeaders cfg) "Content-Type"
    "multipart/form-data" "application/json" (getHeader_defaultHeaders cfg)
  by_cases hf : r.files.isEmpty <;> by_cases hd : r.data.isEmpty <;>
    simp only [buildRequest, contentTypeHeader, hf, hd, if_true, if_false,
      Bool.false_eq_true, ite_true, ite_false, habs1, habs2, hrepl,
      List.append_nil]

/-- C8: for every built request the header mapping is exactly the user-agent
entry, followed by the auth headers, followed by the Content-Type entry
selected by the builder; the auth headers are the Bearer entry when an auth
token is configured and empty otherwise. -/
theorem buildRequest_headers (cfg : ClientConfig) (r : Route) :
    (buildRequest cfg r).headers =
      ("User-Agent", userAgent cfg) :: (authHeaders cfg ++ contentTypeHeader r) ∧
    (∀ tok, cfg.authToken = some tok →
      authHeaders cfg = [("Authorization", "Bearer " ++ tok)]) ∧
    (cfg.authToken = none → authHeaders cfg = []) := by
  refine ⟨?_, fun tok htok => by simp [authHeaders, htok],
    fun hnone => by simp [authHeaders, hnone]⟩
  rw [buildRequest_headers_eq]
  simp [defaultHeaders]

/-- C8 witness: at the sample configuration (token `"TOKEN"`) and the sample
route the header mapping has exactly the stated shape, with the Bearer entry
present. -/
theorem buildRequest_headers_witness :
    (buildRequest cfg0 routeBoth).headers =
      ("User-Agent", userAgent cfg0) :: (authHeaders cfg0 ++ contentTypeHeader routeBoth) ∧
    authHeaders cfg0 = [("Authorization", "Bearer " ++ "TOKEN")] :=
  ⟨(buildRequest_headers cfg0 routeBoth).1,
    (buildRequest_headers cfg0 routeBoth).2.1 "TOKEN" rfl⟩

/-- C9: request building is deterministic: the builder is a pure function of
the configuration and the Route alone (it consults no clock and adds no
volatile header), so identical inputs yield identical prepared requests. -/
theorem buildRequest_deterministic (cfg1 cfg2 : ClientConfig) (r1 r2 : Route)
    (hc : cfg1 = cfg2) (hr : r1 = r2) :
    buildRequest cfg1 r1 = buildRequest cfg2 r2 := by
  rw [hc, hr]

/-- C9 witness: two runs of the builder on the sample configuration and route
agree. -/
theorem buildRequest_deterministic_witness :
    buildRequest cfg0 routeBoth = buildRequest cfg0 routeBoth :=
  buildRequest_deterministic cfg0 cfg0 routeBoth routeBoth rfl rfl

/-- C1 (amended): every response with status code 429 is classified as a
`RateLimitError` carrying the status code 429 and the originating request,
but its message is always the fixed string `"Too many requests"` — the
response body's `errors` list is ignored — and no body is attached. -/
theorem checkResponse_429 (resp : Response) (h : resp.statusCode = 429) :
    checkResponse resp =
      some (LolzteamError.rateLimitError
        (APIStatusErrorData.mk "Too many requests" resp.request none 429)) := by
  simp [checkResponse, Response.ok, h]

/-- C1 witness: the concrete 429 response with body
`errors = ["slow down"]` is classified as the fixed-message rate-limit
error. -/
theorem checkResponse_429_witness :
    checkResponse resp429 =
      some (LolzteamError.rateLimitError
        (APIStatusErrorData.mk "Too many requests" sampleRequest none 429)) :=
  checkResponse_429 resp429 rfl

/-- C1 counterexample: a 429 response with body `errors = ["slow down"]`
yields the message `"Too many requests"`, not `"slow down"` (and carries no
body), refuting the claim that the 429 message joins the body's error
list. -/
theorem checkResponse_429_ignores_body :
    checkResponse resp429 =
      some (LolzteamError.rateLimitError
        (APIStatusErrorData.mk "Too many requests" sampleRequest none 429)) ∧
    "Too many requests" ≠ "slow down" :=
  ⟨rfl, by decide⟩

/-- C3 (amended): for every non-success response whose status is not 429, the
raised `APIStatusError` message is exactly the body's `errors` list joined
with the separator `"; "`; when that list is empty or absent the message is
the empty string — there is no status-specific default fallback. The third
conjunct evaluates the classifier on a 400 response with two errors. -/
theorem checkResponse_message_join (resp : Response) (hok : resp.ok = false)
    (h429 : resp.statusCode ≠ 429) :
    checkResponse resp =
      some (LolzteamError.apiStatusError
        (APIStatusErrorData.mk (String.intercalate "; " (getErrors resp.body))
          resp.request (some (getErrors resp.body)) resp.statusCode)) ∧
    (getErrors resp.body = [] →
      String.intercalate "; " (getErrors resp.body) = "") ∧
    checkResponse resp400pair =
      some (LolzteamError.apiStatusError
        (APIStatusErrorData.mk "first; second" sampleRequest
          (some ["first", "second"]) 400)) := by
  refine ⟨?_, ?_, rfl⟩
  · simp [checkResponse, hok, h429]
  · intro he
    rw [he]
    rfl

/-- C3 witness: the 400 response with errors `["first", "second"]` yields the
message `"first; second"`. -/
theorem checkResponse_message_join_witness :
    checkResponse resp400pair =
      some (LolzteamError.apiStatusError
        (APIStatusErrorData.mk "first; second" sampleRequest
          (some ["first", "second"]) 400)) :=
  (checkResponse_message_join resp400pair rfl (by decide)).2.2

/-- C3 counterexample: a 400 response with body `errors = []` yields an
`APIStatusError` whose message is the empty string, not the default
`"Bad Request"`, refuting the fallback claim. -/
theorem checkResponse_no_default_message :
    checkResponse resp400empty =
      some (LolzteamError.apiStatusError
        (APIStatusErrorData.mk "" sampleRequest (some []) 400)) ∧
    "" ≠ "Bad Request" :=
  ⟨rfl, by decide⟩

/-- C7: for every response with `ok` true, the classifier raises no error and
the dispatcher returns the response's parsed JSON body unmodified. -/
theorem request_ok_returns_body (c : Lolzteam) (route : Route) (s t : Rat)
    (resp : Response) (h : resp.ok = true) :
    checkResponse resp = none ∧
    (request c route s resp t).result = Except.ok resp.body := by
  have hc : checkResponse resp = none := by simp [checkResponse, h]
  exact ⟨hc, by simp [request, hc]⟩

/-- C7 witness: a 200 response with body `id = 1` passes classification and
the dispatcher returns that body unchanged. -/
theorem request_ok_returns_body_witness :
    checkResponse resp200 = none ∧
    (request client3 route0 0 resp200 1).result =
      Except.ok (Json.obj [("id", Json.num 1)]) :=
  request_ok_returns_body client3 route0 0 1 resp200 rfl

/-- C5: the rate limiter's wait computation equals
`max 0 (delay - (now - lastRequestTime))` for every client state and clock
reading; in particular, with a delay of 3 and the last request 1 second in
the past it returns 2, and with the last request 5 seconds in the past it
returns 0. -/
theorem getSleepDuration_eq_max :
    (∀ (c : Lolzteam) (now : Rat),
      getSleepDuration c now =
        max 0 ((c.delayBetweenRequests : Rat) - (now - c.lastRequestTime))) ∧
    getSleepDuration client3 1 = 2 ∧
    getSleepDuration client3 5 = 0 := by
  refine ⟨?_, by norm_num [getSleepDuration, client3], by norm_num [getSleepDuration, client3]⟩
  intro c now
  unfold getSleepDuration
  by_cases h : now - c.lastRequestTime < (c.delayBetweenRequests : Rat)
  · rw [if_pos h, max_eq_right
      (by linarith :
        (0 : Rat) ≤ (c.delayBetweenRequests : Rat) - (now - c.lastRequestTime))]
  · rw [if_neg h, max_eq_left
      (by linarith :
        (c.delayBetweenRequests : Rat) - (now - c.lastRequestTime) ≤ (0 : Rat))]

/-- C6: in every dispatch, the post-dispatch state does not depend on the
dispatch-start clock reading; when classification succeeds the stored
timestamp becomes the completion-time reading (taken after the response was
received), and when classification raises an error the state — hence
`_last_request_time` — is left unchanged. -/
theorem request_timestamp_update (c : Lolzteam) (route : Route) (resp : Response)
    (s s2 t : Rat) :
    (request c route s resp t).client = (request c route s2 resp t).client ∧
    (checkResponse resp = none →
      (request c route s resp t).client = updateLastRequestTime c t) ∧
    (checkResponse resp ≠ none → (request c route s resp t).client = c) := by
  cases h : checkResponse resp with
  | none =>
    exact ⟨by simp [request, h], fun _ => by simp [request, h], fun hn => absurd rfl hn⟩
  | some e =>
    exact ⟨by simp [request, h], fun hn => Option.noConfusion hn,
      fun _ => by simp [request, h]⟩

/-- C6 witness: a failing 429 dispatch leaves the sample client's state
unchanged, while a successful 200 dispatch stores the completion time 7. -/
theorem request_timestamp_update_witness :
    (request client3 route0 0 resp429 7).client = client3 ∧
    (request client3 route0 0 resp200 7).client = updateLastRequestTime client3 7 :=
  ⟨(request_timestamp_update client3 route0 resp429 0 0 7).2.2
      (Option.isSome_iff_ne_none.mp rfl),
    (request_timestamp_update client3 route0 resp200 0 0 7).2.1 rfl⟩

/-- C4 (amended): constructing the client with no `api_key` argument and with
the `LOLZTEAM_API_KEY` environment variable unset fails synchronously before
any network activity, for every version, base url and rate-limit
configuration — but the raised error is the builtin `TypeError`, not a
library-specific configuration-error kind (the source defines no such
class). -/
theorem lolzteamInit_missing_key (v : String) (burl : Option String) (k : Bool)
    (rl d : Int) :
    lolzteamInit v none none burl k rl d =
      Except.error (ConstructionError.typeError apiKeyErrorMessage) := rfl

/-- C4 counterexample: at the concrete default construction the raised error
is the builtin `TypeError`, which is not the spec's configuration-error
kind. -/
theorem lolzteamInit_missing_key_not_configurationError :
    lolzteamInit "0.1.0" none none none true 20 3 =
      Except.error (ConstructionError.typeError apiKeyErrorMessage) ∧
    (ConstructionError.typeError apiKeyErrorMessage).isConfigurationError = false :=
  ⟨rfl, rfl⟩

/-- C10: api-key resolution in the constructor. An argument is treated as
absent exactly when it is `None` or the empty string; a truthy argument takes
precedence — the environment value is never consulted (the result is
identical for any two environment values) and the stored key is the argument;
a falsy argument with a truthy environment value stores the environment
value. -/
theorem lolzteamInit_key_resolution (v : String) (arg env env2 burl : Option String)
    (k : Bool) (rl d : Int) :
    (isTruthyStr arg = false ↔ (arg = none ∨ arg = some "")) ∧
    (isTruthyStr arg = true →
      lolzteamInit v arg env burl k rl d = lolzteamInit v arg env2 burl k rl d ∧
      lolzteamInit v arg env burl k rl d =
        Except.ok (Lolzteam.mk (arg.getD "") v (resolveBaseUrl burl) k rl d 0)) ∧
    (isTruthyStr arg = false → isTruthyStr env = true →
      lolzteamInit v arg env burl k rl d =
        Except.ok (Lolzteam.mk (env.getD "") v (resolveBaseUrl burl) k rl d 0)) := by
  refine ⟨?_, fun h => ?_, fun ha he => ?_⟩
  · cases arg with
    | none => simp [isTruthyStr]
    | some s =>
      by_cases hs : s = ""
      · simp [isTruthyStr, hs]
      · simp [isTruthyStr, hs]
  · constructor <;> simp [lolzteamInit, h]
  · simp [lolzteamInit, ha, he]

/-- C10 witness: with a truthy argument `"KEY"` the environment value is
irrelevant and the stored key is `"KEY"`; with a falsy argument the key
`"ENVKEY"` is taken from the environment. -/
theorem lolzteamInit_key_resolution_witness :
    lolzteamInit "0.1.0" (some "KEY") (some "ENVKEY") none true 20 3 =
      lolzteamInit "0.1.0" (some "KEY") none none true 20 3 ∧
    lolzteamInit "0.1.0" (some "KEY") (some "ENVKEY") none true 20 3 =
      Except.ok (Lolzteam.mk "KEY" "0.1.0" (resolveBaseUrl none) true 20 3 0) ∧
    lolzteamInit "0.1.0" none (some "ENVKEY") none true 20 3 =
      Except.ok (Lolzteam.mk "ENVKEY" "0.1.0" (resolveBaseUrl none) true 20 3 0) :=
  ⟨((lolzteamInit_key_resolution "0.1.0" (some "KEY") (some "ENVKEY") none none
      true 20 3).2.1 (by decide)).1,
    ((lolzteamInit_key_resolution "0.1.0" (some "KEY") (some "ENVKEY") none none
      true 20 3).2.1 (by decide)).2,
    (lolzteamInit_key_resolution "0.1.0" none (some "ENVKEY") none none
      true 20 3).2.2 rfl (by decide)⟩
